import Mathlib

/-!
Verification development for the pyvisa lab-automation repository.

The Python sources are shallowly embedded:
* floating-point quantities are modelled as exact rationals (`ℚ`);
* SCPI commands transmitted to an instrument are an inductive type whose
  constructors carry the command's numeric/string parameters, one
  constructor per literal command template occurring in the sources;
* each driver method is a pure function from its arguments, the driver's
  `connected` flag and (for queries) the instrument's textual response, to
  the list of low-level events it emits (writes, queries, sleeps) paired
  with its `Except` result;
* the sweep controllers are pure functions from their arguments and a
  fault-injection behaviour (which driver calls raise, and what values the
  succeeding ones return) to the list of controller-level events and the
  `Except` result, mirroring the Python `try`/`finally` structure.
-/

set_option linter.unusedVariables false

/-- Errors of the repository's error taxonomy, plus `injected` standing for a
transport fault injected into a driver call by a fault-injection behaviour. -/
inductive SErr
  | notConnected
  | invalidConfig
  | parseError
  | injected
  deriving DecidableEq, Repr

/-- The value space of Python `float(...)` results relevant here: finite values
(modelled exactly as rationals), `nan`, and the two infinities. -/
inductive PyVal
  | num (q : ℚ)
  | nan
  | inf
  | ninf
  deriving DecidableEq, Repr

/-- Whitespace characters stripped by Python's `str.strip()` / `float()`. -/
def isPySpace (c : Char) : Bool :=
  c = ' ' ∨ c = '\t' ∨ c = '\n' ∨ c = '\r' ∨ c = '\x0b' ∨ c = '\x0c'

/-- Strip leading and trailing whitespace from a character list. -/
def trimChars (l : List Char) : List Char :=
  ((l.dropWhile isPySpace).reverse.dropWhile isPySpace).reverse

/-- Numeric value of a string of decimal digits. -/
def digitsVal (ds : List Char) : ℕ :=
  ds.foldl (fun a c => 10 * a + (c.toNat - 48)) 0

/-- Parse an optional exponent part `e±ddd` following a mantissa of value `m`;
fails on any trailing characters. -/
def parseExpPart (l : List Char) (m : ℚ) : Option ℚ :=
  match l with
  | [] => some m
  | e :: r =>
    if e = 'e' ∨ e = 'E' then
      let (sgn, r2) : ℤ × List Char :=
        match r with
        | '+' :: t => (1, t)
        | '-' :: t => (-1, t)
        | _ => (1, r)
      let ed := r2.takeWhile Char.isDigit
      let r3 := r2.dropWhile Char.isDigit
      if ed = [] ∨ r3 ≠ [] then none
      else some (m * (10 : ℚ) ^ (sgn * (digitsVal ed : ℤ)))
    else none

/-- Parse an unsigned decimal literal `ddd[.ddd][e±ddd]` (at least one mantissa
digit required), as accepted by Python's `float()`. -/
def parseUnsigned (l : List Char) : Option ℚ :=
  let ip := l.takeWhile Char.isDigit
  let r1 := l.dropWhile Char.isDigit
  match r1 with
  | '.' :: r2 =>
    let fp := r2.takeWhile Char.isDigit
    let r3 := r2.dropWhile Char.isDigit
    if ip = [] ∧ fp = [] then none
    else parseExpPart r3 ((digitsVal ip : ℚ) + (digitsVal fp : ℚ) / (10 : ℚ) ^ fp.length)
  | _ =>
    if ip = [] then none
    else parseExpPart r1 (digitsVal ip)

/-- Model of Python's `float(s)` on a character list: strip whitespace, parse
an optional sign, then either `inf`/`infinity`/`nan` (case-insensitive) or a
decimal literal.  (Digit-group underscores and unicode digits, which the
builtin also accepts, are outside the payload space used here.) -/
def pyFloatChars (l0 : List Char) : Option PyVal :=
  let l := trimChars l0
  let (sgn, body) : ℤ × List Char :=
    match l with
    | '+' :: t => (1, t)
    | '-' :: t => (-1, t)
    | _ => (1, l)
  let low := body.map Char.toLower
  if low = "inf".data ∨ low = "infinity".data then
    some (if sgn = 1 then PyVal.inf else PyVal.ninf)
  else if low = "nan".data then some PyVal.nan
  else
    match parseUnsigned body with
    | some q => some (PyVal.num ((sgn : ℚ) * q))
    | none => none

/-- Model of Python's `float(s)` on a string. -/
def pyFloat (s : String) : Option PyVal := pyFloatChars s.data

/-- Model of Python's `str.split(',')`: split at every comma, keeping empty
fields. -/
def splitCommas : List Char → List (List Char)
  | [] => [[]]
  | ',' :: t => [] :: splitCommas t
  | c :: t =>
    match splitCommas t with
    | [] => [[c]]
    | f :: rest => (c :: f) :: rest

/-- Model of `[float(val) for val in resp.strip().split(',') if val]`:
strip the payload, split on commas, drop empty fields, parse each remaining
field as a Python float; `none` when some field fails to parse. -/
def parseFloats (resp : String) : Option (List PyVal) :=
  ((splitCommas (trimChars resp.data)).filter (fun f => f ≠ [])).mapM pyFloatChars

/-! ## SCPI command vocabulary of the Keithley 2400 driver

One constructor per literal command template written by
`src/instruments/keithley2400.py`; parameterised commands carry their
arguments. -/

inductive KCmd
  | cls                        -- "*CLS"
  | rst                        -- "*RST"
  | outpOff                    -- ":OUTP OFF"
  | outpOn                     -- ":OUTP ON"
  | rsenOff                    -- ":SYST:RSEN OFF"
  | rsenOn                     -- ":SYST:RSEN ON"
  | sourFuncVolt               -- ":SOUR:FUNC VOLT"
  | sourFuncCurr               -- ":SOUR:FUNC CURR"
  | sourFuncS (f : String)     -- f":SOUR:FUNC {source_func}"
  | sourVoltModeFixed          -- ":SOUR:VOLT:MODE FIXED"
  | sourCurrModeFixed          -- ":SOUR:CURR:MODE FIXED"
  | sourVolt (v : ℚ)           -- f":SOUR:VOLT {v}"
  | sourCurr (v : ℚ)           -- f":SOUR:CURR {v}"
  | sourVoltRang (r : ℚ)       -- f":SOUR:VOLT:RANG {r}"
  | sourVoltLev (l : ℚ)        -- f":SOUR:VOLT:LEV {l}"
  | sourCurrRang (r : ℚ)       -- f":SOUR:CURR:RANG {r}"
  | sourCurrRange (r : ℚ)      -- f":SOUR:CURR:RANGE {r}" (configured path)
  | sourCurrLev (l : ℚ)        -- f":SOUR:CURR:LEV {l}"
  | sensFuncRes                -- ':SENS:FUNC "RES"'
  | sensFuncCurr               -- ":SENS:FUNC 'CURR'"
  | sensFuncVolt               -- ":SENS:FUNC 'VOLT'"
  | sensResModeAuto            -- ":SENS:RES:MODE AUTO"
  | sensResMode (m : String)   -- f":SENS:RES:MODE {mode}"
  | sensResRang (r : ℚ)        -- f":SENS:RES:RANG {r}"
  | sensResOcom (s : String)   -- f":SENS:RES:OCOM {offset_comp}"
  | sensCurrProt (p : ℚ)       -- f":SENS:CURR:PROT {p}"
  | sensVoltProt (p : ℚ)       -- f":SENS:VOLT:PROT {p}"
  | sensCurrRang (r : ℚ)       -- f":SENS:CURR:RANG {r}"
  | sensVoltRang (r : ℚ)       -- f":SENS:VOLT:RANG {r}"
  | formElemRes                -- ":FORM:ELEM RES"
  | formElemCurr               -- ":FORM:ELEM CURR"
  | formElemVolt               -- ":FORM:ELEM VOLT"
  | readQ                      -- ":READ?"
  deriving DecidableEq, Repr

/-- SCPI command vocabulary of the Agilent 8163 driver. -/
inductive ACmd
  | cls                              -- "*CLS"
  | powStat (slot : ℕ) (state : Bool)   -- f"sour{slot}:pow:stat {1/0}"
  | wav (slot : ℕ) (w : ℚ)           -- f"sour{slot}:wav {w}NM"
  | fetchPow (slot chan : ℕ)         -- f"fetch{slot}:chan{chan}:pow?"
  deriving DecidableEq, Repr

/-- Low-level instrument events: a write or a query on the Keithley source
meter, a write or a query on the Agilent multimeter, or a `time.sleep`. -/
inductive LEv
  | wK (c : KCmd)
  | qK (c : KCmd)
  | wA (c : ACmd)
  | qA (c : ACmd)
  | pause (d : ℚ)
  deriving DecidableEq, Repr

/-! ## Keithley 2400 driver methods (`src/instruments/keithley2400.py`)

Each function takes the driver's `connected` flag and, where the Python
method performs a `:READ?` query, the instrument's textual response.  It
returns the emitted low-level event list and the method's result. -/

/-- `Keithley2400SourceMeter.initialize` (lines 46-59). -/
def kInit (connected : Bool) (wire_mode : ℤ) : List LEv × Except SErr Unit :=
  if connected = false then ([], .error .notConnected)
  else
    let pre := [LEv.wK .cls, LEv.wK .rst, LEv.wK .outpOff]
    if wire_mode = 2 then (pre ++ [LEv.wK .rsenOff], .ok ())
    else if wire_mode = 4 then (pre ++ [LEv.wK .rsenOn], .ok ())
    else (pre, .error .invalidConfig)

/-- `Keithley2400SourceMeter.read_resistance_auto` (lines 62-80). -/
def kReadResAuto (connected : Bool) (resistance_range : ℚ) (resp : String) :
    List LEv × Except SErr (List PyVal) :=
  if connected = false then ([], .error .notConnected)
  else
    ([LEv.wK .sourFuncVolt, LEv.wK (.sourVolt (1 / 10)), LEv.wK .sensFuncRes,
      LEv.wK .sensResModeAuto, LEv.wK (.sensResRang resistance_range),
      LEv.wK .formElemRes, LEv.wK .outpOn, LEv.qK .readQ, LEv.wK .outpOff],
     match parseFloats resp with
     | some vs => .ok vs
     | none => .error .parseError)

/-- `Keithley2400SourceMeter.read_resistance_configured` (lines 83-127).
In `"AUTO"` mode it delegates wholesale to `read_resistance_auto`; otherwise
it configures range/mode/offset-compensation/protections/source, reads after
the settle delay, and on a parse failure returns the `[nan]` sentinel instead
of raising. -/
def kReadResConfigured (connected : Bool) (resistance_range : ℚ) (mode offset_comp : String)
    (voltage_prot current_prot : ℚ) (source_func : String) (source_level : ℚ)
    (wire_mode : ℤ) (delay : ℚ) (resp : String) : List LEv × Except SErr (List PyVal) :=
  if connected = false then ([], .error .notConnected)
  else if mode = "AUTO" then kReadResAuto connected resistance_range resp
  else
    let t1 := [LEv.wK (.sensResRang resistance_range), LEv.wK (.sensResMode mode),
               LEv.wK (.sensResOcom offset_comp), LEv.wK (.sensVoltProt voltage_prot),
               LEv.wK (.sensCurrProt current_prot), LEv.wK (.sourFuncS source_func)]
    let t2 :=
      if source_func.toUpper = "VOLT" then
        [LEv.wK (.sourVolt source_level),
         LEv.wK (if wire_mode = 4 then KCmd.rsenOn else KCmd.rsenOff)]
      else if source_func.toUpper = "CURR" then
        [LEv.wK .sourFuncCurr, LEv.wK (.sourCurrRange source_level),
         LEv.wK (.sourCurr source_level)]
      else []
    let t3 := [LEv.wK .formElemRes, LEv.wK .outpOn, LEv.pause delay,
               LEv.qK .readQ, LEv.wK .outpOff]
    (t1 ++ t2 ++ t3,
     match pyFloat resp with
     | some v => .ok [v]
     | none => .ok [PyVal.nan])

/-- `Keithley2400SourceMeter.source_voltage_and_read_current` (lines 130-169). -/
def kSvrc (connected : Bool) (source_voltage_level source_voltage_range
    measure_current_range current_limit delay : ℚ) (resp : String) :
    List LEv × Except SErr (List PyVal) :=
  if connected = false then ([], .error .notConnected)
  else
    ([LEv.wK .sourFuncVolt, LEv.wK .sourVoltModeFixed,
      LEv.wK (.sourVoltRang source_voltage_range), LEv.wK (.sourVoltLev source_voltage_level),
      LEv.wK (.sensCurrProt current_limit), LEv.wK .sensFuncCurr,
      LEv.wK (.sensCurrRang measure_current_range), LEv.wK .formElemCurr,
      LEv.wK .outpOn, LEv.pause delay, LEv.qK .readQ],
     match parseFloats resp with
     | some vs => .ok vs
     | none => .error .parseError)

/-- `Keithley2400SourceMeter.source_current_and_read_voltage` (lines 175-215). -/
def kScrv (connected : Bool) (source_current_level source_current_range
    measure_voltage_range voltage_limit delay : ℚ) (resp : String) :
    List LEv × Except SErr (List PyVal) :=
  if connected = false then ([], .error .notConnected)
  else
    ([LEv.wK .sourFuncCurr, LEv.wK .sourCurrModeFixed, LEv.wK .sensFuncVolt,
      LEv.wK (.sourCurrRang source_current_range), LEv.wK (.sourCurrLev source_current_level),
      LEv.wK (.sensVoltProt voltage_limit), LEv.wK (.sensVoltRang measure_voltage_range),
      LEv.wK .formElemVolt, LEv.wK .outpOn, LEv.pause delay, LEv.qK .readQ],
     match parseFloats resp with
     | some vs => .ok vs
     | none => .error .parseError)

/-- `Keithley2400SourceMeter.turn_off` (lines 220-232): guard on `connected`,
then write the output-disable command (a transport fault there is caught and
logged, never re-raised). -/
def kTurnOff (connected : Bool) : List LEv × Except SErr Unit :=
  if connected = false then ([], .error .notConnected)
  else ([LEv.wK .outpOff], .ok ())

/-! ## SCPI protocol adapter (`src/instruments/scpi_instrument.py`) -/

/-- `SCPIInstrument.write`: the transmitted command (or `none`) and the
result.  `mainPresent` models `self.main is not None`. -/
def scpiWrite (connected mainPresent : Bool) (command : String) :
    Option String × Except SErr Unit :=
  if connected = false ∨ mainPresent = false then (none, .error .notConnected)
  else (some command, .ok ())

/-- `SCPIInstrument.query`: the transmitted command (or `none`) and the
trimmed response. -/
def scpiQuery (connected mainPresent : Bool) (command resp : String) :
    Option String × Except SErr String :=
  if connected = false ∨ mainPresent = false then (none, .error .notConnected)
  else (some command, .ok resp.trim)

/-! ## Agilent 8163 driver methods (`src/instruments/agilent8163.py`) -/

/-- `Agilent8163Multimeter.initialize` (lines 63-68). -/
def aInitLaser (connected : Bool) (laser_slot : ℕ) : List LEv × Except SErr Unit :=
  if connected = false then ([], .error .notConnected)
  else ([LEv.wA .cls, LEv.wA (.powStat laser_slot true)], .ok ())

/-- `Agilent8163Multimeter.set_wavelength` (lines 70-74). -/
def aSetWavelength (connected : Bool) (laser_slot : ℕ) (wavelength : ℚ) :
    List LEv × Except SErr Unit :=
  if connected = false then ([], .error .notConnected)
  else ([LEv.wA (.wav laser_slot wavelength)], .ok ())

/-- `Agilent8163Multimeter.measure_power` (lines 76-88). -/
def aMeasurePower (connected : Bool) (power_slot power_channel : ℕ) (resp : String) :
    List LEv × Except SErr PyVal :=
  if connected = false then ([], .error .notConnected)
  else
    ([LEv.qA (.fetchPow power_slot power_channel)],
     match pyFloat resp with
     | some v => .ok v
     | none => .error .parseError)

/-- `Agilent8163Multimeter.turn_off` (lines 112-116). -/
def aTurnOff (connected : Bool) (laser_slot : ℕ) : List LEv × Except SErr Unit :=
  if connected = false then ([], .error .notConnected)
  else ([LEv.wA (.powStat laser_slot false)], .ok ())

example : pyFloat "1.0" = some (PyVal.num 1) := by with_unfolding_all rfl
example : pyFloat " -2.5e1 " = some (PyVal.num (-25)) := by with_unfolding_all rfl
example : pyFloat "1.0,2.0" = none := by with_unfolding_all rfl
example : pyFloat "abc" = none := by with_unfolding_all rfl
example : pyFloat "inf" = some PyVal.inf := by with_unfolding_all rfl
example : parseFloats "1.0,2.0" = some [PyVal.num 1, PyVal.num 2] := by with_unfolding_all rfl
example : parseFloats " 3.5 " = some [PyVal.num (7/2)] := by with_unfolding_all rfl
example : parseFloats "x" = none := by with_unfolding_all rfl

/-! ## Parameter grids

`np.arange(start, stop, step)` on real arguments: `max 0 ⌈(stop-start)/step⌉`
points `start + i*step`.  Exact rational arithmetic models the float
computation. -/

/-- Model of `np.arange(start, stop, step)`. -/
def arange (start stop step : ℚ) : List ℚ :=
  (List.range (max 0 ⌈(stop - start) / step⌉).toNat).map
    (fun i : ℕ => start + (i : ℚ) * step)

/-- The wavelength grid of `perform_laser_sweep` (laser_sweep.py line 46):
`np.arange(start_wl, stop_wl + step / 2, step)`. -/
def laserGrid (start stop step : ℚ) : List ℚ :=
  arange start (stop + step / 2) step

/-- The stimulus grid of the three source-meter sweeps (sourcemeter_sweep.py
lines 34, 92, 148): `np.arange(start, stop + step, step)`. -/
def smGrid (start stop step : ℚ) : List ℚ :=
  arange start (stop + step) step

/-! ## Controller-level model

The sweep controllers of `src/controllers/` are modelled as pure functions
over an abstract driver-call interface.  A `Beh` (behaviour) fault-injects
the run: driver call number `k` raises a transport fault iff `fail k`, and
otherwise returns the measured value `meas k`.  A call on a disconnected
instrument always raises the not-connected error (the driver guard), before
any injected fault. -/

/-- The three capability roles appearing as controller arguments. -/
inductive Role
  | sm   -- source meter
  | pm   -- power meter
  | ls   -- laser
  deriving DecidableEq, Repr

/-- Abstract driver operations invoked by the controllers. -/
inductive DOp
  | initSM (wire_mode : ℤ)
  | initLaser
  | initPM
  | setWavelength (w : ℚ)
  | measurePower
  | svrc (level range mrange limit delay : ℚ)
  | scrv (level range mrange limit delay : ℚ)
  | turnOff
  deriving DecidableEq, Repr

/-- Controller-level events: a `connected`-flag check, a driver call,
a `time.sleep`, or appending a row to the result list. -/
inductive CEv
  | check (r : Role)
  | call (r : Role) (o : DOp)
  | slp (d : ℚ)
  | row (xs : List ℚ)
  deriving DecidableEq, Repr

/-- Fault-injection behaviour: which driver calls raise, and the value each
succeeding measurement call returns. -/
structure Beh where
  fail : ℕ → Bool
  meas : ℕ → ℚ

/-- The honest behaviour: no driver call faults, call `k` measures `vals k`. -/
def honest (vals : ℕ → ℚ) : Beh := ⟨fun _ => false, vals⟩

/-- Result of driver call number `k` on a `role` instrument whose `connected`
flag is `conn`.  The driver guard fires first; `Keithley2400.turn_off`
catches its own transport faults (so it only raises when disconnected),
while every other operation propagates an injected fault; `initialize` with
an unsupported wire mode raises the invalid-configuration error. -/
def opResult (role : Role) (conn : Bool) (B : Beh) (k : ℕ) : DOp → Except SErr ℚ
  | .turnOff =>
    if conn = false then .error .notConnected
    else if role = Role.sm then .ok 0
    else if B.fail k then .error .injected
    else .ok 0
  | .initSM w =>
    if conn = false then .error .notConnected
    else if B.fail k then .error .injected
    else if w = 2 ∨ w = 4 then .ok 0
    else .error .invalidConfig
  | o =>
    if conn = false then .error .notConnected
    else if B.fail k then .error .injected
    else .ok (B.meas k)

/-! ### `perform_laser_sweep` (laser_sweep.py lines 12-62) -/

/-- The per-point loop of `perform_laser_sweep` (lines 49-56): set the
wavelength, measure power, append `(wl, power)`, then sleep `delay`. -/
def laserLoop (conn : Bool) (B : Beh) (delay : ℚ) :
    ℕ → List ℚ → List CEv × ℕ × Except SErr (List (List ℚ))
  | k, [] => ([], k, .ok [])
  | k, wl :: rest =>
    match opResult .ls conn B k (.setWavelength wl) with
    | .error e => ([CEv.call .ls (.setWavelength wl)], k + 1, .error e)
    | .ok _ =>
      match opResult .ls conn B (k + 1) .measurePower with
      | .error e =>
        ([CEv.call .ls (.setWavelength wl), CEv.call .ls .measurePower], k + 2, .error e)
      | .ok p =>
        let t := laserLoop conn B delay (k + 2) rest
        (CEv.call .ls (.setWavelength wl) :: CEv.call .ls .measurePower ::
           CEv.row [wl, p] :: CEv.slp delay :: t.1,
         t.2.1, (t.2.2).map (fun rs => [wl, p] :: rs))

/-- The `try` body of `perform_laser_sweep`: initialize the laser (no
controller-level `connected` check!), build the wavelength grid, run the
loop. -/
def performLaserSweepBody (conn : Bool) (start_wl stop_wl step delay : ℚ) (B : Beh) :
    List CEv × ℕ × Except SErr (List String × List (List ℚ)) :=
  match opResult .ls conn B 0 .initLaser with
  | .error e => ([CEv.call .ls .initLaser], 1, .error e)
  | .ok _ =>
    let t := laserLoop conn B delay 1 (laserGrid start_wl stop_wl step)
    (CEv.call .ls .initLaser :: t.1, t.2.1,
     (t.2.2).map (fun rows => (["Wavelength (nm)", "Power (dBm)"], rows)))

/-- `perform_laser_sweep`: the `try` body followed by the unconditional
`finally: laser.turn_off()`; an error raised by `turn_off` replaces the
body's outcome, as in Python. -/
def perform_laser_sweep (conn : Bool) (start_wl stop_wl step delay : ℚ) (B : Beh) :
    List CEv × Except SErr (List String × List (List ℚ)) :=
  let t := performLaserSweepBody conn start_wl stop_wl step delay B
  match opResult .ls conn B t.2.1 .turnOff with
  | .error e => (t.1 ++ [CEv.call .ls .turnOff], .error e)
  | .ok _ => (t.1 ++ [CEv.call .ls .turnOff], t.2.2)

/-! ### `measure_iv_curve` (sourcemeter_sweep.py lines 15-58) -/

/-- The per-point loop of `measure_iv_curve` (lines 38-52): source the
voltage and read the current (settle delay inside the driver call), append
`(v, current)`. -/
def ivLoop (conn : Bool) (B : Beh) (srange mrange limit delay : ℚ) :
    ℕ → List ℚ → List CEv × ℕ × Except SErr (List (List ℚ))
  | k, [] => ([], k, .ok [])
  | k, v :: rest =>
    match opResult .sm conn B k (.svrc v srange mrange limit delay) with
    | .error e => ([CEv.call .sm (.svrc v srange mrange limit delay)], k + 1, .error e)
    | .ok cur =>
      let t := ivLoop conn B srange mrange limit delay (k + 1) rest
      (CEv.call .sm (.svrc v srange mrange limit delay) :: CEv.row [v, cur] :: t.1,
       t.2.1, (t.2.2).map (fun rs => [v, cur] :: rs))

/-- The `try` body of `measure_iv_curve`: `connected` check, `initialize`,
grid, loop.  The sourcing range is `|stop - start| + |step|` (line 41). -/
def measureIVBody (smConn : Bool) (start_v stop_v step mrange limit : ℚ)
    (wire_mode : ℤ) (delay : ℚ) (B : Beh) :
    List CEv × ℕ × Except SErr (List String × List (List ℚ)) :=
  if smConn = false then ([CEv.check .sm], 0, .error .notConnected)
  else
    match opResult .sm smConn B 0 (.initSM wire_mode) with
    | .error e => ([CEv.check .sm, CEv.call .sm (.initSM wire_mode)], 1, .error e)
    | .ok _ =>
      let t := ivLoop smConn B (|stop_v - start_v| + |step|) mrange limit delay 1
        (smGrid start_v stop_v step)
      (CEv.check .sm :: CEv.call .sm (.initSM wire_mode) :: t.1, t.2.1,
       (t.2.2).map (fun rows => (["Voltage (V)", "Current (A)"], rows)))

/-- `measure_iv_curve`: body plus `finally: sourcemeter.turn_off()`. -/
def measure_iv_curve (smConn : Bool) (start_v stop_v step mrange limit : ℚ)
    (wire_mode : ℤ) (delay : ℚ) (B : Beh) :
    List CEv × Except SErr (List String × List (List ℚ)) :=
  let t := measureIVBody smConn start_v stop_v step mrange limit wire_mode delay B
  match opResult .sm smConn B t.2.1 .turnOff with
  | .error e => (t.1 ++ [CEv.call .sm .turnOff], .error e)
  | .ok _ => (t.1 ++ [CEv.call .sm .turnOff], t.2.2)

/-! ### `measure_liv_curve` (sourcemeter_sweep.py lines 62-118) -/

/-- The per-point loop of `measure_liv_curve` (lines 96-112): source voltage
and read current, sleep the power-meter delay, measure optical power, append
`(v, current, power)`. -/
def livLoop (smConn pmConn : Bool) (B : Beh) (srange mrange limit smDelay pmDelay : ℚ) :
    ℕ → List ℚ → List CEv × ℕ × Except SErr (List (List ℚ))
  | k, [] => ([], k, .ok [])
  | k, v :: rest =>
    match opResult .sm smConn B k (.svrc v srange mrange limit smDelay) with
    | .error e => ([CEv.call .sm (.svrc v srange mrange limit smDelay)], k + 1, .error e)
    | .ok cur =>
      match opResult .pm pmConn B (k + 1) .measurePower with
      | .error e =>
        ([CEv.call .sm (.svrc v srange mrange limit smDelay), CEv.slp pmDelay,
          CEv.call .pm .measurePower], k + 2, .error e)
      | .ok p =>
        let t := livLoop smConn pmConn B srange mrange limit smDelay pmDelay (k + 2) rest
        (CEv.call .sm (.svrc v srange mrange limit smDelay) :: CEv.slp pmDelay ::
           CEv.call .pm .measurePower :: CEv.row [v, cur, p] :: t.1,
         t.2.1, (t.2.2).map (fun rs => [v, cur, p] :: rs))

/-- The `try` body of `measure_liv_curve`: check source meter, power meter
and laser in that order, initialize the source meter and the laser, set the
centre wavelength, then run the loop. -/
def measureLIVBody (smConn pmConn lsConn : Bool) (start_v stop_v step mrange limit : ℚ)
    (wire_mode : ℤ) (center_wl smDelay pmDelay : ℚ) (B : Beh) :
    List CEv × ℕ × Except SErr (List String × List (List ℚ)) :=
  if smConn = false then ([CEv.check .sm], 0, .error .notConnected)
  else if pmConn = false then ([CEv.check .sm, CEv.check .pm], 0, .error .notConnected)
  else if lsConn = false then
    ([CEv.check .sm, CEv.check .pm, CEv.check .ls], 0, .error .notConnected)
  else
    let checks := [CEv.check .sm, CEv.check .pm, CEv.check .ls]
    match opResult .sm smConn B 0 (.initSM wire_mode) with
    | .error e => (checks ++ [CEv.call .sm (.initSM wire_mode)], 1, .error e)
    | .ok _ =>
      match opResult .ls lsConn B 1 .initLaser with
      | .error e =>
        (checks ++ [CEv.call .sm (.initSM wire_mode), CEv.call .ls .initLaser], 2, .error e)
      | .ok _ =>
        match opResult .ls lsConn B 2 (.setWavelength center_wl) with
        | .error e =>
          (checks ++ [CEv.call .sm (.initSM wire_mode), CEv.call .ls .initLaser,
            CEv.call .ls (.setWavelength center_wl)], 3, .error e)
        | .ok _ =>
          let t := livLoop smConn pmConn B (|stop_v - start_v| + |step|) mrange limit
            smDelay pmDelay 3 (smGrid start_v stop_v step)
          (checks ++ [CEv.call .sm (.initSM wire_mode), CEv.call .ls .initLaser,
             CEv.call .ls (.setWavelength center_wl)] ++ t.1, t.2.1,
           (t.2.2).map (fun rows =>
             (["Voltage (V)", "Current (A)", "Optical Power (dBm)"], rows)))

/-- `measure_liv_curve`: body plus `finally: sourcemeter.turn_off()`. -/
def measure_liv_curve (smConn pmConn lsConn : Bool)
    (start_v stop_v step mrange limit : ℚ) (wire_mode : ℤ)
    (center_wl smDelay pmDelay : ℚ) (B : Beh) :
    List CEv × Except SErr (List String × List (List ℚ)) :=
  let t := measureLIVBody smConn pmConn lsConn start_v stop_v step mrange limit
    wire_mode center_wl smDelay pmDelay B
  match opResult .sm smConn B t.2.1 .turnOff with
  | .error e => (t.1 ++ [CEv.call .sm .turnOff], .error e)
  | .ok _ => (t.1 ++ [CEv.call .sm .turnOff], t.2.2)

/-! ### `measure_laser_liv_curve_by_source_current` (sourcemeter_sweep.py
lines 122-173) -/

/-- The per-point loop (lines 152-167): source the current and read voltage,
sleep the power-meter delay, measure optical power, append the row
`(read_voltage, current, power)` — the measured voltage is the FIRST field,
the sourced current the second (line 165). -/
def laserLivLoop (smConn pmConn : Bool) (B : Beh) (srange mrange limit smDelay pmDelay : ℚ) :
    ℕ → List ℚ → List CEv × ℕ × Except SErr (List (List ℚ))
  | k, [] => ([], k, .ok [])
  | k, cur :: rest =>
    match opResult .sm smConn B k (.scrv cur srange mrange limit smDelay) with
    | .error e => ([CEv.call .sm (.scrv cur srange mrange limit smDelay)], k + 1, .error e)
    | .ok v =>
      match opResult .pm pmConn B (k + 1) .measurePower with
      | .error e =>
        ([CEv.call .sm (.scrv cur srange mrange limit smDelay), CEv.slp pmDelay,
          CEv.call .pm .measurePower], k + 2, .error e)
      | .ok p =>
        let t := laserLivLoop smConn pmConn B srange mrange limit smDelay pmDelay (k + 2) rest
        (CEv.call .sm (.scrv cur srange mrange limit smDelay) :: CEv.slp pmDelay ::
           CEv.call .pm .measurePower :: CEv.row [v, cur, p] :: t.1,
         t.2.1, (t.2.2).map (fun rs => [v, cur, p] :: rs))

/-- The `try` body of `measure_laser_liv_curve_by_source_current`: check
source meter and power meter, initialize both, then run the loop. -/
def measureLaserLIVBody (smConn pmConn : Bool) (start_c stop_c step mrange limit : ℚ)
    (wire_mode : ℤ) (smDelay pmDelay : ℚ) (B : Beh) :
    List CEv × ℕ × Except SErr (List String × List (List ℚ)) :=
  if smConn = false then ([CEv.check .sm], 0, .error .notConnected)
  else if pmConn = false then ([CEv.check .sm, CEv.check .pm], 0, .error .notConnected)
  else
    match opResult .sm smConn B 0 (.initSM wire_mode) with
    | .error e =>
      ([CEv.check .sm, CEv.check .pm, CEv.call .sm (.initSM wire_mode)], 1, .error e)
    | .ok _ =>
      match opResult .pm pmConn B 1 .initPM with
      | .error e =>
        ([CEv.check .sm, CEv.check .pm, CEv.call .sm (.initSM wire_mode),
          CEv.call .pm .initPM], 2, .error e)
      | .ok _ =>
        let t := laserLivLoop smConn pmConn B (|stop_c - start_c| + |step|) mrange limit
          smDelay pmDelay 2 (smGrid start_c stop_c step)
        (CEv.check .sm :: CEv.check .pm :: CEv.call .sm (.initSM wire_mode) ::
           CEv.call .pm .initPM :: t.1, t.2.1,
         (t.2.2).map (fun rows =>
           (["Voltage (V)", "Current (A)", "Optical Power (dBm)"], rows)))

/-- `measure_laser_liv_curve_by_source_current`: body plus
`finally: sourcemeter.turn_off()`. -/
def measure_laser_liv_curve_by_source_current (smConn pmConn : Bool)
    (start_c stop_c step mrange limit : ℚ) (wire_mode : ℤ)
    (smDelay pmDelay : ℚ) (B : Beh) :
    List CEv × Except SErr (List String × List (List ℚ)) :=
  let t := measureLaserLIVBody smConn pmConn start_c stop_c step mrange limit
    wire_mode smDelay pmDelay B
  match opResult .sm smConn B t.2.1 .turnOff with
  | .error e => (t.1 ++ [CEv.call .sm .turnOff], .error e)
  | .ok _ => (t.1 ++ [CEv.call .sm .turnOff], t.2.2)

/-! ## Command-level expansion of controller runs

For a run without injected transport faults, each driver call expands to the
exact low-level event list of the corresponding concrete driver method
(Keithley 2400 for the source meter, Agilent 8163 with its default slot and
channel numbers for the laser and power meter; the power meter's
`initialize` is the Agilent driver's single `initialize` method).  The
trace component of each driver method does not depend on the instrument's
textual response, so the response argument is irrelevant here. -/

/-- Low-level events issued by one driver call on an instrument whose
`connected` flag is `conn`. -/
def opCmds (conn : Bool) (role : Role) : DOp → List LEv
  | .initSM w => (kInit conn w).1
  | .initLaser => (aInitLaser conn 1).1
  | .initPM => (aInitLaser conn 1).1
  | .setWavelength w => (aSetWavelength conn 1 w).1
  | .measurePower => (aMeasurePower conn 2 1 "").1
  | .svrc lvl rng mr lim dly => (kSvrc conn lvl rng mr lim dly "").1
  | .scrv lvl rng mr lim dly => (kScrv conn lvl rng mr lim dly "").1
  | .turnOff =>
    match role with
    | .sm => (kTurnOff conn).1
    | _ => (aTurnOff conn 1).1

/-- The `connected` flag of each role given the three controller arguments. -/
def connOf (smConn pmConn lsConn : Bool) : Role → Bool
  | .sm => smConn
  | .pm => pmConn
  | .ls => lsConn

/-- Low-level expansion of one controller event. -/
def expandEv (smConn pmConn lsConn : Bool) : CEv → List LEv
  | .check _ => []
  | .row _ => []
  | .slp d => [LEv.pause d]
  | .call r o => opCmds (connOf smConn pmConn lsConn r) r o

/-- Low-level instrument-command trace of a controller event list. -/
def lowTrace (smConn pmConn lsConn : Bool) (evs : List CEv) : List LEv :=
  evs.flatMap (expandEv smConn pmConn lsConn)

/-! ## Trace predicates -/

/-- A controller-level `connected` check event. -/
def isCheck : CEv → Bool
  | .check _ => true
  | _ => false

/-- A driver call event. -/
def isCall : CEv → Bool
  | .call _ _ => true
  | _ => false

/-- A `turn_off` call on the source meter. -/
def isSMTurnOff : CEv → Bool
  | .call .sm .turnOff => true
  | _ => false

/-- A `turn_off` call on the laser. -/
def isLsTurnOff : CEv → Bool
  | .call .ls .turnOff => true
  | _ => false

/-- A write or a query (an instrument command), as opposed to a sleep. -/
def isCmd : LEv → Bool
  | .pause _ => false
  | _ => true

/-- Output-enable state machine of the Keithley 2400: `:OUTP ON` and
`:OUTP OFF` writes toggle the output relay, every other event leaves it. -/
def outpStep (s : Bool) : LEv → Bool
  | .wK .outpOn => true
  | .wK .outpOff => false
  | _ => s

/-- Output-enable state after a low-level event trace. -/
def outputAfter (s : Bool) (tr : List LEv) : Bool := tr.foldl outpStep s

/-- The milestone commands named by the specification for
`source_voltage_and_read_current`: source-function select, source range and
level, compliance limit, sense measurement range, output enable, settle
delay, read. -/
def svrcMilestone : LEv → Bool
  | .wK .sourFuncVolt => true
  | .wK (.sourVoltRang _) => true
  | .wK (.sourVoltLev _) => true
  | .wK (.sensCurrProt _) => true
  | .wK (.sensCurrRang _) => true
  | .wK .outpOn => true
  | .pause _ => true
  | .qK .readQ => true
  | _ => false

/-- The milestone commands named by the specification for
`source_current_and_read_voltage`. -/
def scrvMilestone : LEv → Bool
  | .wK .sourFuncCurr => true
  | .wK (.sourCurrRang _) => true
  | .wK (.sourCurrLev _) => true
  | .wK (.sensVoltProt _) => true
  | .wK (.sensVoltRang _) => true
  | .wK .outpOn => true
  | .pause _ => true
  | .qK .readQ => true
  | _ => false

/-! ## Grid lemmas -/

/-- How far a grid value `x` lies beyond the sweep's `stop` value `b`, in the
sweep direction given by the sign of `step`. -/
def overshoot (s b x : ℚ) : ℚ := if 0 < s then x - b else b - x

/-- Specification of `arange` for a positive step and nonempty span: the
number of points is `⌈(b-a)/s⌉`, the first point is `a`, the last point lies
in `[b - s, b)`, and every point lies in `[a, b)`. -/
theorem arange_pos_spec {a b s : ℚ} (hs : 0 < s) (hab : a < b) :
    (arange a b s).length = (⌈(b - a) / s⌉).toNat ∧
    (arange a b s).head? = some a ∧
    (∃ l, (arange a b s).getLast? = some l ∧ b - s ≤ l ∧ l < b) ∧
    ∀ x ∈ arange a b s, a ≤ x ∧ x < b := by
  have hy0 : 0 < (b - a) / s := div_pos (by linarith) hs
  have hn1 : 1 ≤ ⌈(b - a) / s⌉ := Int.ceil_pos.mpr hy0
  have hmax : max 0 ⌈(b - a) / s⌉ = ⌈(b - a) / s⌉ := max_eq_right (by omega)
  have hyle : (b - a) / s ≤ (⌈(b - a) / s⌉ : ℚ) := Int.le_ceil _
  have hylt : ((⌈(b - a) / s⌉ : ℚ)) < (b - a) / s + 1 := Int.ceil_lt_add_one _
  have hys : (b - a) / s * s = b - a := div_mul_cancel₀ _ (ne_of_gt hs)
  obtain ⟨m, hm⟩ : ∃ m : ℕ, (⌈(b - a) / s⌉).toNat = m + 1 :=
    ⟨(⌈(b - a) / s⌉).toNat - 1, by omega⟩
  have hcastz : (((⌈(b - a) / s⌉).toNat : ℤ)) = ⌈(b - a) / s⌉ := Int.toNat_of_nonneg (by omega)
  have hcast : (((⌈(b - a) / s⌉).toNat : ℚ)) = ((⌈(b - a) / s⌉ : ℚ)) := by exact_mod_cast hcastz
  have hmcast : ((m : ℚ)) = ((⌈(b - a) / s⌉ : ℚ)) - 1 := by
    have : ((m : ℚ)) + 1 = (((⌈(b - a) / s⌉).toNat : ℚ)) := by exact_mod_cast hm.symm
    rw [hcast] at this
    linarith
  have harr : arange a b s = (List.range (m + 1)).map (fun i : ℕ => a + (i : ℚ) * s) := by
    rw [arange, hmax, hm]
  have hlast : a + (m : ℚ) * s < b ∧ b - s ≤ a + (m : ℚ) * s := by
    constructor
    · have h1 : ((⌈(b - a) / s⌉ : ℚ)) - 1 < (b - a) / s := by linarith
      have h2 : (((⌈(b - a) / s⌉ : ℚ)) - 1) * s < (b - a) / s * s :=
        mul_lt_mul_of_pos_right h1 hs
      rw [hys] at h2
      rw [hmcast]
      linarith
    · have h1 : (b - a) / s - 1 ≤ ((⌈(b - a) / s⌉ : ℚ)) - 1 := by linarith
      have h2 : ((b - a) / s - 1) * s ≤ (((⌈(b - a) / s⌉ : ℚ)) - 1) * s :=
        mul_le_mul_of_nonneg_right h1 (le_of_lt hs)
      rw [sub_mul, hys] at h2
      rw [hmcast]
      linarith
  refine ⟨?_, ?_, ?_, ?_⟩
  · rw [harr]; simp [hm]
  · rw [harr, List.range_succ_eq_map]
    simp
  · refine ⟨a + (m : ℚ) * s, ?_, hlast.2, hlast.1⟩
    rw [harr]
    rw [show List.range (m + 1) = List.range m ++ [m] from List.range_succ m]
    rw [List.map_append]
    simp [List.getLast?_concat]
  · intro x hx
    rw [harr] at hx
    simp only [List.mem_map, List.mem_range] at hx
    obtain ⟨i, hi, hix⟩ := hx
    have hi' : (i : ℚ) ≤ (m : ℚ) := by exact_mod_cast Nat.lt_succ_iff.mp hi
    constructor
    · have : 0 ≤ (i : ℚ) * s := mul_nonneg (by positivity) (le_of_lt hs)
      linarith [hix]
    · have : (i : ℚ) * s ≤ (m : ℚ) * s := mul_le_mul_of_nonneg_right hi' (le_of_lt hs)
      have := hlast.1
      linarith [hix]

/-- `arange` with negated arguments enumerates the negated grid. -/
theorem arange_neg_eq (a b s : ℚ) :
    arange a b s = (arange (-a) (-b) (-s)).map (fun x => -x) := by
  unfold arange
  rw [List.map_map]
  have h1 : (-b - -a) / -s = (b - a) / s := by
    rw [show (-b - -a : ℚ) = -(b - a) by ring, neg_div_neg_eq]
  rw [h1]
  exact List.map_congr_left (fun i _ => by simp; ring)

/-- Laser-sweep grid, positive direction: `⌈(b-a)/s + 1/2⌉` points, first
point `a`, last point within half a step of `b`, no point at or beyond
`b + s/2`. -/
theorem laserGrid_pos_spec {a b s : ℚ} (hs : 0 < s) (hab : a < b) :
    (laserGrid a b s).length = (⌈(b - a) / s + 1 / 2⌉).toNat ∧
    (laserGrid a b s).head? = some a ∧
    (∃ l, (laserGrid a b s).getLast? = some l ∧ b - s / 2 ≤ l ∧ l < b + s / 2) ∧
    ∀ x ∈ laserGrid a b s, a ≤ x ∧ x < b + s / 2 := by
  have h := arange_pos_spec hs (show a < b + s / 2 by linarith)
  have harg : (b + s / 2 - a) / s = (b - a) / s + 1 / 2 := by
    field_simp
    ring
  obtain ⟨h1, h2, ⟨l, hl, hl1, hl2⟩, h4⟩ := h
  refine ⟨?_, h2, ⟨l, hl, by linarith, hl2⟩, h4⟩
  rw [show laserGrid a b s = arange a (b + s / 2) s from rfl, h1, harg]

/-- Source-meter sweep grid, positive direction: `⌈(b-a)/s⌉ + 1` points,
first point `a`, last point in `[b, b + s)`, no point at or beyond `b + s`. -/
theorem smGrid_pos_spec {a b s : ℚ} (hs : 0 < s) (hab : a < b) :
    (smGrid a b s).length = (⌈(b - a) / s⌉ + 1).toNat ∧
    (smGrid a b s).head? = some a ∧
    (∃ l, (smGrid a b s).getLast? = some l ∧ b ≤ l ∧ l < b + s) ∧
    ∀ x ∈ smGrid a b s, a ≤ x ∧ x < b + s := by
  have h := arange_pos_spec hs (show a < b + s by linarith)
  have harg : (b + s - a) / s = (b - a) / s + 1 := by
    field_simp
    ring
  obtain ⟨h1, h2, ⟨l, hl, hl1, hl2⟩, h4⟩ := h
  refine ⟨?_, h2, ⟨l, hl, by linarith, hl2⟩, h4⟩
  rw [show smGrid a b s = arange a (b + s) s from rfl, h1, harg, Int.ceil_add_one]

/-- The laser grid with negated arguments is the negated laser grid. -/
theorem laserGrid_neg_eq (a b s : ℚ) :
    laserGrid a b s = (laserGrid (-a) (-b) (-s)).map (fun x => -x) := by
  unfold laserGrid
  rw [arange_neg_eq, show (-(b + s / 2) : ℚ) = -b + -s / 2 by ring]

/-- The source-meter grid with negated arguments is the negated grid. -/
theorem smGrid_neg_eq (a b s : ℚ) :
    smGrid a b s = (smGrid (-a) (-b) (-s)).map (fun x => -x) := by
  unfold smGrid
  rw [arange_neg_eq, show (-(b + s) : ℚ) = -b + -s by ring]

/-- The amended grid property; see `C1_grid_amended`. -/
def GridAmendedProp (a b s : ℚ) : Prop :=
  (laserGrid a b s).length = (⌈|b - a| / |s| + 1 / 2⌉).toNat ∧
  (smGrid a b s).length = (⌈|b - a| / |s|⌉ + 1).toNat ∧
  (laserGrid a b s).head? = some a ∧
  (smGrid a b s).head? = some a ∧
  (∃ l, (laserGrid a b s).getLast? = some l ∧ |l - b| ≤ |s| / 2) ∧
  (∃ l, (smGrid a b s).getLast? = some l ∧ 0 ≤ overshoot s b l ∧ overshoot s b l < |s|) ∧
  (∀ x ∈ laserGrid a b s, overshoot s b x < |s| / 2) ∧
  (∀ x ∈ smGrid a b s, overshoot s b x < |s|)

/-- `overshoot` is mirrored under negation of all arguments. -/
theorem overshoot_neg {s b x : ℚ} (hs : s < 0) :
    overshoot s b x = overshoot (-s) (-b) (-x) := by
  unfold overshoot
  rw [if_neg (by linarith), if_pos (by linarith)]
  ring

/-- The amended grid property holds in the increasing direction. -/
theorem gridAmended_pos {a b s : ℚ} (hs : 0 < s) (hab : a < b) : GridAmendedProp a b s := by
  have habs : |b - a| = b - a := abs_of_pos (by linarith)
  have hsabs : |s| = s := abs_of_pos hs
  obtain ⟨L1, L2, ⟨l, hl, hl1, hl2⟩, L4⟩ := laserGrid_pos_spec hs hab
  obtain ⟨M1, M2, ⟨l', hl', hm1, hm2⟩, M4⟩ := smGrid_pos_spec hs hab
  refine ⟨?_, ?_, L2, M2, ⟨l, hl, ?_⟩, ⟨l', hl', ?_, ?_⟩, ?_, ?_⟩
  · rw [habs, hsabs]; exact L1
  · rw [habs, hsabs]; exact M1
  · rw [hsabs, abs_le]; constructor <;> linarith
  · unfold overshoot; rw [if_pos hs]; linarith
  · unfold overshoot; rw [if_pos hs, hsabs]; linarith
  · intro x hx
    have hx2 := (L4 x hx).2
    unfold overshoot
    rw [if_pos hs, hsabs]
    linarith
  · intro x hx
    have hx2 := (M4 x hx).2
    unfold overshoot
    rw [if_pos hs, hsabs]
    linarith

/-- The amended grid property holds in the decreasing direction, by
reflection of the increasing case. -/
theorem gridAmended_neg {a b s : ℚ} (hs : s < 0) (hab : b < a) : GridAmendedProp a b s := by
  obtain ⟨L1, M1, L2, M2, ⟨l, hl, hlb⟩, ⟨l', hl', hm1, hm2⟩, L4, M4⟩ :=
    gridAmended_pos (b := -b) (neg_pos.mpr hs) (neg_lt_neg hab)
  have habs : |(-b) - (-a)| = |b - a| := by rw [show ((-b) - (-a) : ℚ) = -(b - a) by ring, abs_neg]
  have hsabs : |(-s)| = |s| := abs_neg s
  refine ⟨?_, ?_, ?_, ?_, ⟨-l, ?_, ?_⟩, ⟨-l', ?_, ?_, ?_⟩, ?_, ?_⟩
  · rw [laserGrid_neg_eq, List.length_map, L1, habs, hsabs]
  · rw [smGrid_neg_eq, List.length_map, M1, habs, hsabs]
  · rw [laserGrid_neg_eq, List.head?_map, L2]; simp
  · rw [smGrid_neg_eq, List.head?_map, M2]; simp
  · rw [laserGrid_neg_eq, List.getLast?_map, hl]; simp
  · rw [show ((-l) - b : ℚ) = -(l - -b) by ring, abs_neg, ← hsabs]; exact hlb
  · rw [smGrid_neg_eq, List.getLast?_map, hl']; simp
  · rw [overshoot_neg hs, neg_neg]; exact hm1
  · rw [overshoot_neg hs, neg_neg, ← hsabs]; exact hm2
  · intro x hx
    rw [laserGrid_neg_eq, List.mem_map] at hx
    obtain ⟨y, hy, rfl⟩ := hx
    rw [overshoot_neg hs, neg_neg, ← hsabs]
    exact L4 y hy
  · intro x hx
    rw [smGrid_neg_eq, List.mem_map] at hx
    obtain ⟨y, hy, rfl⟩ := hx
    rw [overshoot_neg hs, neg_neg, ← hsabs]
    exact M4 y hy

/-- C1 (amended).  For every valid triple `(start, stop, step)` — `step`
nonzero and of the sign of `stop - start` — the LASER sweep grid
(`np.arange(start, stop + step/2, step)`) starts at `start`, ends within
half a step of `stop`, never overshoots `stop` by half a step or more, and
has `⌈|stop-start|/|step| + 1/2⌉` points; the SOURCE-METER sweep grids
(`np.arange(start, stop + step, step)`) start at `start`, always reach
`stop` but may overshoot it by up to (strictly less than) one full step,
and have `⌈|stop-start|/|step|⌉ + 1` points.  The originally claimed length
`⌊|stop-start|/|step|⌋ + 1` and the half-step bound therefore fail for the
source-meter sweeps (see `C1_counterexample`). -/
theorem C1_grid_amended (a b s : ℚ)
    (h : (0 < s ∧ a < b) ∨ (s < 0 ∧ b < a)) : GridAmendedProp a b s := by
  rcases h with ⟨hs, hab⟩ | ⟨hs, hab⟩
  · exact gridAmended_pos hs hab
  · exact gridAmended_neg hs hab

/-- Witness for `C1_grid_amended` at `(start, stop, step) = (0, 1, 9/10)`. -/
theorem C1_grid_amended_witness :
    ((((0:ℚ) < 9 / 10 ∧ (0:ℚ) < 1) ∨ ((9:ℚ) / 10 < 0 ∧ (1:ℚ) < 0))) ∧
      GridAmendedProp 0 1 (9 / 10) :=
  ⟨Or.inl ⟨by norm_num, by norm_num⟩,
   C1_grid_amended 0 1 (9 / 10) (Or.inl ⟨by norm_num, by norm_num⟩)⟩

/-- C1 fails as stated: for the IV sweep with `start = 0`, `stop = 1`,
`step = 9/10` (a valid triple), the grid is `[0, 9/10, 9/5]` — 3 points
where the claim's formula `⌊|stop-start|/|step|⌋ + 1` gives 2, and the last
point `9/5` lies `8/10` beyond `stop`, more than half a step (`9/20`). -/
theorem C1_counterexample :
    smGrid 0 1 (9 / 10) = [0, 9 / 10, 9 / 5] ∧
    (⌊|(1:ℚ) - 0| / |(9:ℚ) / 10|⌋ + 1 : ℤ) = 2 ∧
    (smGrid 0 1 (9 / 10)).length = 3 ∧
    ((9:ℚ) / 5) ∈ smGrid 0 1 (9 / 10) ∧
    (9:ℚ) / 5 - 1 > ((9:ℚ) / 10) / 2 := by
  have hg : smGrid 0 1 (9 / 10) = [0, 9 / 10, 9 / 5] := by with_unfolding_all rfl
  refine ⟨hg, ?_, by rw [hg]; rfl, by rw [hg]; simp, by norm_num⟩
  have h1 : |(1:ℚ) - 0| = 1 := by norm_num
  have h2 : |(9:ℚ) / 10| = 9 / 10 := by norm_num
  rw [h1, h2]
  have h3 : ⌊(1:ℚ) / (9 / 10)⌋ = 1 := by
    apply Int.floor_eq_iff.mpr
    constructor <;> norm_num
  rw [h3]
  norm_num

/-! ## Loop event lemmas -/

/-- Events of the laser-sweep loop are wavelength/power calls, rows and
sleeps: never a `turn_off` call, never a `connected` check. -/
theorem laserLoop_events (conn : Bool) (B : Beh) (d : ℚ) :
    ∀ g k ev, ev ∈ (laserLoop conn B d k g).1 →
      isCheck ev = false ∧ isLsTurnOff ev = false := by
  intro g
  induction g with
  | nil => intro k ev h; simp [laserLoop] at h
  | cons wl rest ih =>
    intro k ev h
    rw [laserLoop] at h
    cases hop : opResult .ls conn B k (.setWavelength wl) with
    | error e =>
      rw [hop] at h
      simp at h
      subst h
      exact ⟨rfl, rfl⟩
    | ok v =>
      rw [hop] at h
      cases hop2 : opResult .ls conn B (k + 1) .measurePower with
      | error e =>
        rw [hop2] at h
        simp at h
        rcases h with h | h <;> subst h <;> exact ⟨rfl, rfl⟩
      | ok p =>
        rw [hop2] at h
        simp at h
        rcases h with h | h | h | h | h
        · subst h; exact ⟨rfl, rfl⟩
        · subst h; exact ⟨rfl, rfl⟩
        · subst h; exact ⟨rfl, rfl⟩
        · subst h; exact ⟨rfl, rfl⟩
        · exact ih (k + 2) ev h

/-- Events of the IV loop: never a source-meter `turn_off`, never a check. -/
theorem ivLoop_events (conn : Bool) (B : Beh) (sr mr lim d : ℚ) :
    ∀ g k ev, ev ∈ (ivLoop conn B sr mr lim d k g).1 →
      isCheck ev = false ∧ isSMTurnOff ev = false := by
  intro g
  induction g with
  | nil => intro k ev h; simp [ivLoop] at h
  | cons v rest ih =>
    intro k ev h
    rw [ivLoop] at h
    cases hop : opResult .sm conn B k (.svrc v sr mr lim d) with
    | error e =>
      rw [hop] at h
      simp at h
      subst h
      exact ⟨rfl, rfl⟩
    | ok cur =>
      rw [hop] at h
      simp at h
      rcases h with h | h | h
      · subst h; exact ⟨rfl, rfl⟩
      · subst h; exact ⟨rfl, rfl⟩
      · exact ih (k + 1) ev h

/-- Events of the voltage-driven LIV loop: never a source-meter `turn_off`,
never a check. -/
theorem livLoop_events (smConn pmConn : Bool) (B : Beh) (sr mr lim d1 d2 : ℚ) :
    ∀ g k ev, ev ∈ (livLoop smConn pmConn B sr mr lim d1 d2 k g).1 →
      isCheck ev = false ∧ isSMTurnOff ev = false := by
  intro g
  induction g with
  | nil => intro k ev h; simp [livLoop] at h
  | cons v rest ih =>
    intro k ev h
    rw [livLoop] at h
    cases hop : opResult .sm smConn B k (.svrc v sr mr lim d1) with
    | error e =>
      rw [hop] at h
      simp at h
      subst h
      exact ⟨rfl, rfl⟩
    | ok cur =>
      rw [hop] at h
      cases hop2 : opResult .pm pmConn B (k + 1) .measurePower with
      | error e =>
        rw [hop2] at h
        simp at h
        rcases h with h | h | h <;> subst h <;> exact ⟨rfl, rfl⟩
      | ok p =>
        rw [hop2] at h
        simp at h
        rcases h with h | h | h | h | h
        · subst h; exact ⟨rfl, rfl⟩
        · subst h; exact ⟨rfl, rfl⟩
        · subst h; exact ⟨rfl, rfl⟩
        · subst h; exact ⟨rfl, rfl⟩
        · exact ih (k + 2) ev h

/-- Events of the current-driven LIV loop: never a source-meter `turn_off`,
never a check. -/
theorem laserLivLoop_events (smConn pmConn : Bool) (B : Beh) (sr mr lim d1 d2 : ℚ) :
    ∀ g k ev, ev ∈ (laserLivLoop smConn pmConn B sr mr lim d1 d2 k g).1 →
      isCheck ev = false ∧ isSMTurnOff ev = false := by
  intro g
  induction g with
  | nil => intro k ev h; simp [laserLivLoop] at h
  | cons c rest ih =>
    intro k ev h
    rw [laserLivLoop] at h
    cases hop : opResult .sm smConn B k (.scrv c sr mr lim d1) with
    | error e =>
      rw [hop] at h
      simp at h
      subst h
      exact ⟨rfl, rfl⟩
    | ok v =>
      rw [hop] at h
      cases hop2 : opResult .pm pmConn B (k + 1) .measurePower with
      | error e =>
        rw [hop2] at h
        simp at h
        rcases h with h | h | h <;> subst h <;> exact ⟨rfl, rfl⟩
      | ok p =>
        rw [hop2] at h
        simp at h
        rcases h with h | h | h | h | h
        · subst h; exact ⟨rfl, rfl⟩
        · subst h; exact ⟨rfl, rfl⟩
        · subst h; exact ⟨rfl, rfl⟩
        · subst h; exact ⟨rfl, rfl⟩
        · exact ih (k + 2) ev h

/-- The `try` body of the laser sweep never invokes `turn_off` and performs
no `connected` check. -/
theorem performLaserSweepBody_events (conn : Bool) (a b s d : ℚ) (B : Beh) :
    ∀ ev ∈ (performLaserSweepBody conn a b s d B).1,
      isCheck ev = false ∧ isLsTurnOff ev = false := by
  intro ev h
  rw [performLaserSweepBody] at h
  cases hop : opResult .ls conn B 0 .initLaser with
  | error e =>
    rw [hop] at h
    simp at h
    subst h
    exact ⟨rfl, rfl⟩
  | ok v =>
    rw [hop] at h
    simp at h
    rcases h with h | h
    · subst h; exact ⟨rfl, rfl⟩
    · exact laserLoop_events conn B d _ 1 ev h

/-- The `try` body of the IV sweep never invokes the source-meter
`turn_off`. -/
theorem measureIVBody_events (smConn : Bool) (a b s mr lim : ℚ) (wm : ℤ) (d : ℚ) (B : Beh) :
    ∀ ev ∈ (measureIVBody smConn a b s mr lim wm d B).1, isSMTurnOff ev = false := by
  intro ev h
  rw [measureIVBody] at h
  cases smConn with
  | false =>
    simp at h
    subst h
    rfl
  | true =>
    simp only [Bool.true_eq_false, if_false] at h
    cases hop : opResult .sm true B 0 (.initSM wm) with
    | error e =>
      rw [hop] at h
      simp at h
      rcases h with h | h <;> subst h <;> rfl
    | ok v =>
      rw [hop] at h
      simp at h
      rcases h with h | h | h
      · subst h; rfl
      · subst h; rfl
      · exact (ivLoop_events true B (|b - a| + |s|) mr lim d _ 1 ev h).2

/-- The `try` body of the voltage-driven LIV sweep never invokes the
source-meter `turn_off`. -/
theorem measureLIVBody_events (smConn pmConn lsConn : Bool)
    (a b s mr lim : ℚ) (wm : ℤ) (cwl d1 d2 : ℚ) (B : Beh) :
    ∀ ev ∈ (measureLIVBody smConn pmConn lsConn a b s mr lim wm cwl d1 d2 B).1,
      isSMTurnOff ev = false := by
  intro ev h
  rw [measureLIVBody] at h
  cases smConn with
  | false => simp at h; subst h; rfl
  | true =>
    cases pmConn with
    | false =>
      simp at h
      rcases h with h | h <;> subst h <;> rfl
    | true =>
      cases lsConn with
      | false =>
        simp at h
        rcases h with h | h | h <;> subst h <;> rfl
      | true =>
        simp only [Bool.true_eq_false, if_false] at h
        cases hop : opResult .sm true B 0 (.initSM wm) with
        | error e =>
          rw [hop] at h
          simp at h
          rcases h with h | h | h | h <;> subst h <;> rfl
        | ok v =>
          rw [hop] at h
          cases hop2 : opResult .ls true B 1 .initLaser with
          | error e =>
            rw [hop2] at h
            simp at h
            rcases h with h | h | h | h | h <;> subst h <;> rfl
          | ok v2 =>
            rw [hop2] at h
            cases hop3 : opResult .ls true B 2 (.setWavelength cwl) with
            | error e =>
              rw [hop3] at h
              simp at h
              rcases h with h | h | h | h | h | h <;> subst h <;> rfl
            | ok v3 =>
              rw [hop3] at h
              simp at h
              rcases h with h | h | h | h | h | h | h
              · subst h; rfl
              · subst h; rfl
              · subst h; rfl
              · subst h; rfl
              · subst h; rfl
              · subst h; rfl
              · exact (livLoop_events true true B (|b - a| + |s|) mr lim d1 d2 _ 3 ev h).2

/-- The `try` body of the current-driven LIV sweep never invokes the
source-meter `turn_off`. -/
theorem measureLaserLIVBody_events (smConn pmConn : Bool)
    (a b s mr lim : ℚ) (wm : ℤ) (d1 d2 : ℚ) (B : Beh) :
    ∀ ev ∈ (measureLaserLIVBody smConn pmConn a b s mr lim wm d1 d2 B).1,
      isSMTurnOff ev = false := by
  intro ev h
  rw [measureLaserLIVBody] at h
  cases smConn with
  | false => simp at h; subst h; rfl
  | true =>
    cases pmConn with
    | false =>
      simp at h
      rcases h with h | h <;> subst h <;> rfl
    | true =>
      simp only [Bool.true_eq_false, if_false] at h
      cases hop : opResult .sm true B 0 (.initSM wm) with
      | error e =>
        rw [hop] at h
        simp at h
        rcases h with h | h | h <;> subst h <;> rfl
      | ok v =>
        rw [hop] at h
        cases hop2 : opResult .pm true B 1 .initPM with
        | error e =>
          rw [hop2] at h
          simp at h
          rcases h with h | h | h | h <;> subst h <;> rfl
        | ok v2 =>
          rw [hop2] at h
          simp at h
          rcases h with h | h | h | h | h
          · subst h; rfl
          · subst h; rfl
          · subst h; rfl
          · subst h; rfl
          · exact (laserLivLoop_events true true B (|b - a| + |s|) mr lim d1 d2 _ 2 ev h).2

/-- C2 (confirmed).  For every sweep invocation and every fault-injection
behaviour — including runs where the precondition check, `initialize`, or
any mid-loop measurement call raises, and runs on disconnected
instruments — `turn_off` is invoked on the primary stimulus instrument
exactly once: the `try` bodies never call it and the `finally` block always
calls it once. -/
theorem C2_turn_off_exactly_once (lsConn smConn pmConn : Bool)
    (a b s d mr lim cwl d2 : ℚ) (wm : ℤ) (B : Beh) :
    ((perform_laser_sweep lsConn a b s d B).1).countP isLsTurnOff = 1 ∧
    ((measure_iv_curve smConn a b s mr lim wm d B).1).countP isSMTurnOff = 1 ∧
    ((measure_liv_curve smConn pmConn lsConn a b s mr lim wm cwl d d2 B).1).countP
      isSMTurnOff = 1 ∧
    ((measure_laser_liv_curve_by_source_current smConn pmConn a b s mr lim wm d d2 B).1).countP
      isSMTurnOff = 1 := by
  refine ⟨?_, ?_, ?_, ?_⟩
  · rw [perform_laser_sweep]
    cases opResult .ls lsConn B (performLaserSweepBody lsConn a b s d B).2.1 .turnOff <;>
      simp only [List.countP_append] <;>
      rw [List.countP_eq_zero.mpr
        (fun ev h => by simp [(performLaserSweepBody_events lsConn a b s d B ev h).2])] <;>
      rfl
  · rw [measure_iv_curve]
    cases opResult .sm smConn B (measureIVBody smConn a b s mr lim wm d B).2.1 .turnOff <;>
      simp only [List.countP_append] <;>
      rw [List.countP_eq_zero.mpr
        (fun ev h => by simp [measureIVBody_events smConn a b s mr lim wm d B ev h])] <;>
      rfl
  · rw [measure_liv_curve]
    cases opResult .sm smConn B
        (measureLIVBody smConn pmConn lsConn a b s mr lim wm cwl d d2 B).2.1 .turnOff <;>
      simp only [List.countP_append] <;>
      rw [List.countP_eq_zero.mpr
        (fun ev h => by
          simp [measureLIVBody_events smConn pmConn lsConn a b s mr lim wm cwl d d2 B ev h])] <;>
      rfl
  · rw [measure_laser_liv_curve_by_source_current]
    cases opResult .sm smConn B
        (measureLaserLIVBody smConn pmConn a b s mr lim wm d d2 B).2.1 .turnOff <;>
      simp only [List.countP_append] <;>
      rw [List.countP_eq_zero.mpr
        (fun ev h => by
          simp [measureLaserLIVBody_events smConn pmConn a b s mr lim wm d d2 B ev h])] <;>
      rfl

/-- C3 fails as stated: invoking the voltage-driven LIV sweep with the
source meter connected and the power meter disconnected raises the
not-connected error, but an instrument command IS issued during the
invocation — the `finally` block's `turn_off` writes `:OUTP OFF` on the
connected source meter. -/
theorem C3_counterexample :
    (measure_liv_curve true false true 0 1 (1 / 2) (1 / 1000) (1 / 100) 2 1550 (1 / 10)
        (1 / 10) (honest fun _ => 0)).2 = .error SErr.notConnected ∧
    lowTrace true false true
        (measure_liv_curve true false true 0 1 (1 / 2) (1 / 1000) (1 / 100) 2 1550 (1 / 10)
          (1 / 10) (honest fun _ => 0)).1 = [LEv.wK KCmd.outpOff] ∧
    isCmd (LEv.wK KCmd.outpOff) = true := by
  refine ⟨by with_unfolding_all rfl, by with_unfolding_all rfl, rfl⟩

/-- C3 (amended).  With the source meter connected and the power meter
disconnected, `measure_liv_curve` raises the not-connected error; the `try`
body stops at the two precondition checks, so no instrument command is
issued before the raise; the guaranteed finalization then issues exactly
one command — the source meter's output-disable write — before the error
propagates. -/
theorem C3_liv_precondition_amended (lsConn : Bool) (a b s mr lim : ℚ) (wm : ℤ)
    (cwl d1 d2 : ℚ) (B : Beh) :
    (measure_liv_curve true false lsConn a b s mr lim wm cwl d1 d2 B).2
        = .error SErr.notConnected ∧
    (measureLIVBody true false lsConn a b s mr lim wm cwl d1 d2 B).1
        = [CEv.check .sm, CEv.check .pm] ∧
    (measure_liv_curve true false lsConn a b s mr lim wm cwl d1 d2 B).1
        = [CEv.check .sm, CEv.check .pm, CEv.call .sm .turnOff] ∧
    lowTrace true false lsConn
        (measure_liv_curve true false lsConn a b s mr lim wm cwl d1 d2 B).1
        = [LEv.wK KCmd.outpOff] := by
  refine ⟨rfl, rfl, rfl, rfl⟩

/-- The IV-sweep body's first event is the source-meter `connected` check. -/
theorem measureIVBody_head (smConn : Bool) (a b s mr lim : ℚ) (wm : ℤ) (d : ℚ) (B : Beh) :
    ∃ t, (measureIVBody smConn a b s mr lim wm d B).1 = CEv.check .sm :: t := by
  cases smConn with
  | false => exact ⟨[], rfl⟩
  | true =>
    rw [measureIVBody]
    simp only [Bool.true_eq_false, if_false]
    cases opResult .sm true B 0 (.initSM wm) with
    | error e => exact ⟨_, rfl⟩
    | ok v => exact ⟨_, rfl⟩

/-- The LIV-sweep body's first event is the source-meter `connected` check. -/
theorem measureLIVBody_head (smConn pmConn lsConn : Bool) (a b s mr lim : ℚ) (wm : ℤ)
    (cwl d1 d2 : ℚ) (B : Beh) :
    ∃ t, (measureLIVBody smConn pmConn lsConn a b s mr lim wm cwl d1 d2 B).1
      = CEv.check .sm :: t := by
  cases smConn with
  | false => exact ⟨[], rfl⟩
  | true =>
    cases pmConn with
    | false => exact ⟨_, rfl⟩
    | true =>
      cases lsConn with
      | false => exact ⟨_, rfl⟩
      | true =>
        rw [measureLIVBody]
        simp only [Bool.true_eq_false, if_false]
        cases opResult .sm true B 0 (.initSM wm) with
        | error e => exact ⟨_, rfl⟩
        | ok v =>
          cases opResult .ls true B 1 .initLaser with
          | error e => exact ⟨_, rfl⟩
          | ok v2 =>
            cases opResult .ls true B 2 (.setWavelength cwl) with
            | error e => exact ⟨_, rfl⟩
            | ok v3 => exact ⟨_, rfl⟩

/-- The current-driven LIV body's first event is the source-meter check. -/
theorem measureLaserLIVBody_head (smConn pmConn : Bool) (a b s mr lim : ℚ) (wm : ℤ)
    (d1 d2 : ℚ) (B : Beh) :
    ∃ t, (measureLaserLIVBody smConn pmConn a b s mr lim wm d1 d2 B).1
      = CEv.check .sm :: t := by
  cases smConn with
  | false => exact ⟨[], rfl⟩
  | true =>
    cases pmConn with
    | false => exact ⟨_, rfl⟩
    | true =>
      rw [measureLaserLIVBody]
      simp only [Bool.true_eq_false, if_false]
      cases opResult .sm true B 0 (.initSM wm) with
      | error e => exact ⟨_, rfl⟩
      | ok v =>
        cases opResult .pm true B 1 .initPM with
        | error e => exact ⟨_, rfl⟩
        | ok v2 => exact ⟨_, rfl⟩

/-- C4 fails as stated: `perform_laser_sweep` performs driver calls (six of
them on this two-point sweep) but not a single controller-level `connected`
check. -/
theorem C4_counterexample :
    ((perform_laser_sweep true 1 2 1 (1 / 10) (honest fun _ => 0)).1).countP isCheck = 0 ∧
    ((perform_laser_sweep true 1 2 1 (1 / 10) (honest fun _ => 0)).1).countP isCall = 6 := by
  refine ⟨by with_unfolding_all rfl, by with_unfolding_all rfl⟩

/-- C4 (amended).  Every driver operation other than construction and close
fails fast with the not-connected error and transmits nothing when the
`connected` flag is false; the three source-meter sweep controllers check
`connected` on their instrument arguments before any driver call (their
first trace event is a check, and with any argument disconnected their body
performs no driver call at all); but `perform_laser_sweep` performs NO
controller-level check and relies solely on the driver-level guard. -/
theorem C4_connected_guard_amended
    (wm : ℤ) (rng vp cp sl dly lvl rg mr lim w cwl a b s d1 d2 : ℚ)
    (mode oc sf c resp : String) (slot chan : ℕ) (mp smConn pmConn lsConn : Bool)
    (B : Beh) :
    (kInit false wm = ([], .error .notConnected) ∧
     kReadResAuto false rng resp = ([], .error .notConnected) ∧
     kReadResConfigured false rng mode oc vp cp sf sl wm dly resp
        = ([], .error .notConnected) ∧
     kSvrc false lvl rg mr lim dly resp = ([], .error .notConnected) ∧
     kScrv false lvl rg mr lim dly resp = ([], .error .notConnected) ∧
     kTurnOff false = ([], .error .notConnected) ∧
     aInitLaser false slot = ([], .error .notConnected) ∧
     aSetWavelength false slot w = ([], .error .notConnected) ∧
     aMeasurePower false slot chan resp = ([], .error .notConnected) ∧
     aTurnOff false slot = ([], .error .notConnected) ∧
     scpiWrite false mp c = (none, .error .notConnected) ∧
     scpiQuery false mp c resp = (none, .error .notConnected)) ∧
    ((measure_iv_curve smConn a b s mr lim wm d1 B).1.head? = some (CEv.check .sm) ∧
     (measure_liv_curve smConn pmConn lsConn a b s mr lim wm cwl d1 d2 B).1.head?
        = some (CEv.check .sm) ∧
     (measure_laser_liv_curve_by_source_current smConn pmConn a b s mr lim wm d1 d2 B).1.head?
        = some (CEv.check .sm)) ∧
    (((measureIVBody false a b s mr lim wm d1 B).1).countP isCall = 0 ∧
     ((measureLIVBody false pmConn lsConn a b s mr lim wm cwl d1 d2 B).1).countP isCall = 0 ∧
     ((measureLIVBody true false lsConn a b s mr lim wm cwl d1 d2 B).1).countP isCall = 0 ∧
     ((measureLIVBody true true false a b s mr lim wm cwl d1 d2 B).1).countP isCall = 0 ∧
     ((measureLaserLIVBody false pmConn a b s mr lim wm d1 d2 B).1).countP isCall = 0 ∧
     ((measureLaserLIVBody true false a b s mr lim wm d1 d2 B).1).countP isCall = 0) ∧
    ((perform_laser_sweep lsConn a b s d1 B).1).countP isCheck = 0 := by
  refine ⟨⟨rfl, rfl, rfl, rfl, rfl, rfl, rfl, rfl, rfl, rfl, rfl, rfl⟩, ⟨?_, ?_, ?_⟩,
    ⟨rfl, rfl, rfl, rfl, rfl, rfl⟩, ?_⟩
  · obtain ⟨t, ht⟩ := measureIVBody_head smConn a b s mr lim wm d1 B
    rw [measure_iv_curve]
    cases opResult .sm smConn B (measureIVBody smConn a b s mr lim wm d1 B).2.1 .turnOff <;>
      simp [ht]
  · obtain ⟨t, ht⟩ := measureLIVBody_head smConn pmConn lsConn a b s mr lim wm cwl d1 d2 B
    rw [measure_liv_curve]
    cases opResult .sm smConn B
        (measureLIVBody smConn pmConn lsConn a b s mr lim wm cwl d1 d2 B).2.1 .turnOff <;>
      simp [ht]
  · obtain ⟨t, ht⟩ := measureLaserLIVBody_head smConn pmConn a b s mr lim wm d1 d2 B
    rw [measure_laser_liv_curve_by_source_current]
    cases opResult .sm smConn B
        (measureLaserLIVBody smConn pmConn a b s mr lim wm d1 d2 B).2.1 .turnOff <;>
      simp [ht]
  · rw [perform_laser_sweep]
    cases opResult .ls lsConn B (performLaserSweepBody lsConn a b s d1 B).2.1 .turnOff <;>
      simp only [List.countP_append] <;>
      rw [List.countP_eq_zero.mpr
        (fun ev h => by simp [(performLaserSweepBody_events lsConn a b s d1 B ev h).1])] <;>
      rfl

/-! ## Fault-free runs: result rows -/

/-- In a fault-free laser sweep, the loop returns one `[wl, power]` row per
grid point, in grid order, with the wavelength first. -/
theorem laserLoop_honest (vals : ℕ → ℚ) (d : ℚ) :
    ∀ g k, ∃ rows, (laserLoop true (honest vals) d k g).2.2 = .ok rows ∧
      rows.length = g.length ∧ rows.map (fun r => r[0]?) = g.map some := by
  intro g
  induction g with
  | nil => intro k; exact ⟨[], rfl, rfl, rfl⟩
  | cons wl rest ih =>
    intro k
    obtain ⟨rows, h1, h2, h3⟩ := ih (k + 2)
    have hop1 : opResult .ls true (honest vals) k (.setWavelength wl) = .ok (vals k) := rfl
    have hop2 : opResult .ls true (honest vals) (k + 1) .measurePower
        = .ok (vals (k + 1)) := rfl
    refine ⟨[wl, vals (k + 1)] :: rows, ?_, by simp [h2], by simp [h3]⟩
    rw [laserLoop, hop1, hop2]
    simp [h1, Except.map]

/-- In a fault-free IV sweep, the loop returns one `[v, current]` row per
grid point, in grid order, with the sourced voltage first. -/
theorem ivLoop_honest (vals : ℕ → ℚ) (sr mr lim d : ℚ) :
    ∀ g k, ∃ rows, (ivLoop true (honest vals) sr mr lim d k g).2.2 = .ok rows ∧
      rows.length = g.length ∧ rows.map (fun r => r[0]?) = g.map some := by
  intro g
  induction g with
  | nil => intro k; exact ⟨[], rfl, rfl, rfl⟩
  | cons v rest ih =>
    intro k
    obtain ⟨rows, h1, h2, h3⟩ := ih (k + 1)
    have hop : opResult .sm true (honest vals) k (.svrc v sr mr lim d) = .ok (vals k) := rfl
    refine ⟨[v, vals k] :: rows, ?_, by simp [h2], by simp [h3]⟩
    rw [ivLoop, hop]
    simp [h1, Except.map]

/-- In a fault-free voltage-driven LIV sweep, the loop returns one
`[v, current, power]` row per grid point, sourced voltage first. -/
theorem livLoop_honest (vals : ℕ → ℚ) (sr mr lim d1 d2 : ℚ) :
    ∀ g k, ∃ rows, (livLoop true true (honest vals) sr mr lim d1 d2 k g).2.2 = .ok rows ∧
      rows.length = g.length ∧ rows.map (fun r => r[0]?) = g.map some := by
  intro g
  induction g with
  | nil => intro k; exact ⟨[], rfl, rfl, rfl⟩
  | cons v rest ih =>
    intro k
    obtain ⟨rows, h1, h2, h3⟩ := ih (k + 2)
    have hop1 : opResult .sm true (honest vals) k (.svrc v sr mr lim d1) = .ok (vals k) := rfl
    have hop2 : opResult .pm true (honest vals) (k + 1) .measurePower
        = .ok (vals (k + 1)) := rfl
    refine ⟨[v, vals k, vals (k + 1)] :: rows, ?_, by simp [h2], by simp [h3]⟩
    rw [livLoop, hop1, hop2]
    simp [h1, Except.map]

/-- In a fault-free current-driven LIV sweep, the loop returns one
`[read_voltage, current, power]` row per grid point: the SOURCED CURRENT is
the SECOND field of each row, the measured voltage the first. -/
theorem laserLivLoop_honest (vals : ℕ → ℚ) (sr mr lim d1 d2 : ℚ) :
    ∀ g k, ∃ rows, (laserLivLoop true true (honest vals) sr mr lim d1 d2 k g).2.2
        = .ok rows ∧
      rows.length = g.length ∧ rows.map (fun r => r[1]?) = g.map some := by
  intro g
  induction g with
  | nil => intro k; exact ⟨[], rfl, rfl, rfl⟩
  | cons c rest ih =>
    intro k
    obtain ⟨rows, h1, h2, h3⟩ := ih (k + 2)
    have hop1 : opResult .sm true (honest vals) k (.scrv c sr mr lim d1) = .ok (vals k) := rfl
    have hop2 : opResult .pm true (honest vals) (k + 1) .measurePower
        = .ok (vals (k + 1)) := rfl
    refine ⟨[vals k, c, vals (k + 1)] :: rows, ?_, by simp [h2], by simp [h3]⟩
    rw [laserLivLoop, hop1, hop2]
    simp [h1, Except.map]

/-- C5 fails as stated: in the current-driven LIV sweep over currents
`[1, 2]` with measured values `100 + k`, the first row is
`[102, 1, 103]` — the measured voltage `102`, not the sourced current `1`,
is the first field (the stimulus is the second field, under the
"Current (A)" header). -/
theorem C5_counterexample :
    (measure_laser_liv_curve_by_source_current true true 1 2 1 (1 / 1000) (1 / 100) 2
        (1 / 10) (1 / 10) (honest fun k => (100 : ℚ) + k)).2
      = .ok (["Voltage (V)", "Current (A)", "Optical Power (dBm)"],
             [[102, 1, 103], [104, 2, 105]]) ∧
    ((102 : ℚ)) ≠ 1 := by
  refine ⟨by with_unfolding_all rfl, by norm_num⟩

/-- C5 (amended).  Every fault-free sweep returns the declared headers and
one row per grid point, rows in grid iteration order; the stimulus is the
FIRST row field for the laser, IV and voltage-driven LIV sweeps, but in the
current-driven LIV sweep the row is `(measured voltage, sourced current,
power)` — matching the declared header order `("Voltage (V)", "Current (A)",
"Optical Power (dBm)")` — so the sourced current is the SECOND field. -/
theorem C5_rows_amended (vals : ℕ → ℚ) (a b s d mr lim cwl d2 : ℚ) (wm : ℤ)
    (hwm : wm = 2 ∨ wm = 4) :
    (∃ rows, (perform_laser_sweep true a b s d (honest vals)).2
        = .ok (["Wavelength (nm)", "Power (dBm)"], rows) ∧
      rows.length = (laserGrid a b s).length ∧
      rows.map (fun r => r[0]?) = (laserGrid a b s).map some) ∧
    (∃ rows, (measure_iv_curve true a b s mr lim wm d (honest vals)).2
        = .ok (["Voltage (V)", "Current (A)"], rows) ∧
      rows.length = (smGrid a b s).length ∧
      rows.map (fun r => r[0]?) = (smGrid a b s).map some) ∧
    (∃ rows, (measure_liv_curve true true true a b s mr lim wm cwl d d2 (honest vals)).2
        = .ok (["Voltage (V)", "Current (A)", "Optical Power (dBm)"], rows) ∧
      rows.length = (smGrid a b s).length ∧
      rows.map (fun r => r[0]?) = (smGrid a b s).map some) ∧
    (∃ rows,
      (measure_laser_liv_curve_by_source_current true true a b s mr lim wm d d2
          (honest vals)).2
        = .ok (["Voltage (V)", "Current (A)", "Optical Power (dBm)"], rows) ∧
      rows.length = (smGrid a b s).length ∧
      rows.map (fun r => r[1]?) = (smGrid a b s).map some) := by
  refine ⟨?_, ?_, ?_, ?_⟩
  · obtain ⟨rows, h1, h2, h3⟩ := laserLoop_honest vals d (laserGrid a b s) 1
    refine ⟨rows, ?_, h2, h3⟩
    have hto : ∀ k, opResult .ls true (honest vals) k .turnOff = .ok 0 := fun k => rfl
    have hinit : opResult .ls true (honest vals) 0 .initLaser = .ok (vals 0) := rfl
    rw [perform_laser_sweep]
    simp only [performLaserSweepBody, hinit, hto]
    simp [h1, Except.map]
  · obtain ⟨rows, h1, h2, h3⟩ := ivLoop_honest vals (|b - a| + |s|) mr lim d (smGrid a b s) 1
    refine ⟨rows, ?_, h2, h3⟩
    have hto : ∀ k, opResult .sm true (honest vals) k .turnOff = .ok 0 := fun k => rfl
    have hinit : opResult .sm true (honest vals) 0 (.initSM wm) = .ok 0 := by
      simp [opResult, honest, hwm]
    rw [measure_iv_curve]
    simp only [measureIVBody, hinit, hto, Bool.true_eq_false, if_false]
    simp [h1, Except.map]
  · obtain ⟨rows, h1, h2, h3⟩ :=
      livLoop_honest vals (|b - a| + |s|) mr lim d d2 (smGrid a b s) 3
    refine ⟨rows, ?_, h2, h3⟩
    have hto : ∀ k, opResult .sm true (honest vals) k .turnOff = .ok 0 := fun k => rfl
    have hinit : opResult .sm true (honest vals) 0 (.initSM wm) = .ok 0 := by
      simp [opResult, honest, hwm]
    have hinitL : opResult .ls true (honest vals) 1 .initLaser = .ok (vals 1) := rfl
    have hwl : opResult .ls true (honest vals) 2 (.setWavelength cwl) = .ok (vals 2) := rfl
    rw [measure_liv_curve]
    simp only [measureLIVBody, hinit, hinitL, hwl, hto, Bool.true_eq_false, if_false]
    simp [h1, Except.map]
  · obtain ⟨rows, h1, h2, h3⟩ :=
      laserLivLoop_honest vals (|b - a| + |s|) mr lim d d2 (smGrid a b s) 2
    refine ⟨rows, ?_, h2, h3⟩
    have hto : ∀ k, opResult .sm true (honest vals) k .turnOff = .ok 0 := fun k => rfl
    have hinit : opResult .sm true (honest vals) 0 (.initSM wm) = .ok 0 := by
      simp [opResult, honest, hwm]
    have hinitP : opResult .pm true (honest vals) 1 .initPM = .ok (vals 1) := rfl
    rw [measure_laser_liv_curve_by_source_current]
    simp only [measureLaserLIVBody, hinit, hinitP, hto, Bool.true_eq_false, if_false]
    simp [h1, Except.map]

/-- Witness for `C5_rows_amended` at wire mode 2 and concrete parameters. -/
theorem C5_rows_amended_witness :
    ((2 : ℤ) = 2 ∨ (2 : ℤ) = 4) ∧
    ((∃ rows, (perform_laser_sweep true 0 1 (1 / 2) (1 / 10)
          (honest fun k => (k : ℚ))).2
        = .ok (["Wavelength (nm)", "Power (dBm)"], rows) ∧
      rows.length = (laserGrid 0 1 (1 / 2)).length ∧
      rows.map (fun r => r[0]?) = (laserGrid 0 1 (1 / 2)).map some) ∧
    (∃ rows, (measure_iv_curve true 0 1 (1 / 2) (1 / 1000) (1 / 100) 2 (1 / 10)
          (honest fun k => (k : ℚ))).2
        = .ok (["Voltage (V)", "Current (A)"], rows) ∧
      rows.length = (smGrid 0 1 (1 / 2)).length ∧
      rows.map (fun r => r[0]?) = (smGrid 0 1 (1 / 2)).map some) ∧
    (∃ rows, (measure_liv_curve true true true 0 1 (1 / 2) (1 / 1000) (1 / 100) 2 1550
          (1 / 10) (1 / 10) (honest fun k => (k : ℚ))).2
        = .ok (["Voltage (V)", "Current (A)", "Optical Power (dBm)"], rows) ∧
      rows.length = (smGrid 0 1 (1 / 2)).length ∧
      rows.map (fun r => r[0]?) = (smGrid 0 1 (1 / 2)).map some) ∧
    (∃ rows,
      (measure_laser_liv_curve_by_source_current true true 0 1 (1 / 2) (1 / 1000) (1 / 100)
          2 (1 / 10) (1 / 10) (honest fun k => (k : ℚ))).2
        = .ok (["Voltage (V)", "Current (A)", "Optical Power (dBm)"], rows) ∧
      rows.length = (smGrid 0 1 (1 / 2)).length ∧
      rows.map (fun r => r[1]?) = (smGrid 0 1 (1 / 2)).map some)) :=
  ⟨Or.inl rfl,
   C5_rows_amended (fun k => (k : ℚ)) 0 1 (1 / 2) (1 / 10) (1 / 1000) (1 / 100) 1550
     (1 / 10) 2 (Or.inl rfl)⟩

/-- C6 fails as stated: in the laser sweep the measurement call immediately
follows the wavelength call — no settle delay between them — and the sleep
comes only after the row is recorded. -/
theorem C6_counterexample :
    ((perform_laser_sweep true 1 2 1 (1 / 10) (honest fun k => (k : ℚ))).1)[1]?
      = some (CEv.call .ls (.setWavelength 1)) ∧
    ((perform_laser_sweep true 1 2 1 (1 / 10) (honest fun k => (k : ℚ))).1)[2]?
      = some (CEv.call .ls .measurePower) ∧
    ((perform_laser_sweep true 1 2 1 (1 / 10) (honest fun k => (k : ℚ))).1)[3]?
      = some (CEv.row [1, 2]) ∧
    ((perform_laser_sweep true 1 2 1 (1 / 10) (honest fun k => (k : ℚ))).1)[4]?
      = some (CEv.slp (1 / 10)) := by
  refine ⟨by with_unfolding_all rfl, by with_unfolding_all rfl,
    by with_unfolding_all rfl, by with_unfolding_all rfl⟩

/-- C6 (amended).  In the source-meter sweeps the per-point protocol is
set-stimulus → settle delay → read (the delay sits inside the driver call,
between the output-enable write and the `:READ?` query), then the row is
recorded.  The laser sweep instead performs set-wavelength → measure →
record → sleep: its delay elapses after recording, not between stimulus and
measurement. -/
theorem C6_step_order_amended (vals : ℕ → ℚ) (k : ℕ) (wl v c d sr mr lim dly : ℚ)
    (rest : List ℚ) (resp : String) :
    (laserLoop true (honest vals) d k (wl :: rest)).1
      = CEv.call .ls (.setWavelength wl) :: CEv.call .ls .measurePower ::
          CEv.row [wl, vals (k + 1)] :: CEv.slp d ::
          (laserLoop true (honest vals) d (k + 2) rest).1 ∧
    (ivLoop true (honest vals) sr mr lim dly k (v :: rest)).1
      = CEv.call .sm (.svrc v sr mr lim dly) :: CEv.row [v, vals k] ::
          (ivLoop true (honest vals) sr mr lim dly (k + 1) rest).1 ∧
    ((kSvrc true v sr mr lim dly resp).1).drop 8
      = [LEv.wK .outpOn, LEv.pause dly, LEv.qK .readQ] ∧
    ((kScrv true c sr mr lim dly resp).1).drop 8
      = [LEv.wK .outpOn, LEv.pause dly, LEv.qK .readQ] := by
  exact ⟨rfl, rfl, rfl, rfl⟩

/-- C7 (confirmed).  On a connected source meter both source-and-measure
operations emit, in order: source-function select, source range, source
level, the complementary compliance limit, the sense measurement range,
output enable, the settle delay, then the read; the read is the final
event, no output-disable command occurs anywhere in the call, and the
output-enable state machine ends in the enabled state from any initial
state. -/
theorem C7_source_measure_sequence (lvl rng mr lim dly : ℚ) (resp : String) (s0 : Bool) :
    ((kSvrc true lvl rng mr lim dly resp).1).filter svrcMilestone
      = [LEv.wK .sourFuncVolt, LEv.wK (.sourVoltRang rng), LEv.wK (.sourVoltLev lvl),
         LEv.wK (.sensCurrProt lim), LEv.wK (.sensCurrRang mr), LEv.wK .outpOn,
         LEv.pause dly, LEv.qK .readQ] ∧
    ((kScrv true lvl rng mr lim dly resp).1).filter scrvMilestone
      = [LEv.wK .sourFuncCurr, LEv.wK (.sourCurrRang rng), LEv.wK (.sourCurrLev lvl),
         LEv.wK (.sensVoltProt lim), LEv.wK (.sensVoltRang mr), LEv.wK .outpOn,
         LEv.pause dly, LEv.qK .readQ] ∧
    ((kSvrc true lvl rng mr lim dly resp).1).getLast? = some (LEv.qK .readQ) ∧
    ((kScrv true lvl rng mr lim dly resp).1).getLast? = some (LEv.qK .readQ) ∧
    LEv.wK .outpOff ∉ (kSvrc true lvl rng mr lim dly resp).1 ∧
    LEv.wK .outpOff ∉ (kScrv true lvl rng mr lim dly resp).1 ∧
    outputAfter s0 ((kSvrc true lvl rng mr lim dly resp).1) = true ∧
    outputAfter s0 ((kScrv true lvl rng mr lim dly resp).1) = true := by
  refine ⟨rfl, rfl, rfl, rfl, by simp [kSvrc], by simp [kScrv], rfl, rfl⟩

/-- C8 (confirmed).  `initialize` on a connected source meter emits the
remote-sense-off command for wire mode 2, the remote-sense-on command for
wire mode 4, and for any other wire mode fails with the
invalid-configuration error after the reset preamble, emitting neither
remote-sense command. -/
theorem C8_wire_mode (w : ℤ) (h2 : w ≠ 2) (h4 : w ≠ 4) :
    kInit true 2
      = ([LEv.wK .cls, LEv.wK .rst, LEv.wK .outpOff, LEv.wK .rsenOff], .ok ()) ∧
    kInit true 4
      = ([LEv.wK .cls, LEv.wK .rst, LEv.wK .outpOff, LEv.wK .rsenOn], .ok ()) ∧
    kInit true w
      = ([LEv.wK .cls, LEv.wK .rst, LEv.wK .outpOff], .error .invalidConfig) ∧
    LEv.wK .rsenOff ∉ (kInit true w).1 ∧ LEv.wK .rsenOn ∉ (kInit true w).1 := by
  have h : kInit true w
      = ([LEv.wK .cls, LEv.wK .rst, LEv.wK .outpOff], .error .invalidConfig) := by
    rw [kInit]
    simp [h2, h4]
  refine ⟨rfl, rfl, h, by rw [h]; simp, by rw [h]; simp⟩

/-- Witness for `C8_wire_mode` at wire mode 3. -/
theorem C8_wire_mode_witness :
    ((3 : ℤ) ≠ 2 ∧ (3 : ℤ) ≠ 4) ∧
    (kInit true 2
        = ([LEv.wK .cls, LEv.wK .rst, LEv.wK .outpOff, LEv.wK .rsenOff], .ok ()) ∧
     kInit true 4
        = ([LEv.wK .cls, LEv.wK .rst, LEv.wK .outpOff, LEv.wK .rsenOn], .ok ()) ∧
     kInit true 3
        = ([LEv.wK .cls, LEv.wK .rst, LEv.wK .outpOff], .error .invalidConfig) ∧
     LEv.wK .rsenOff ∉ (kInit true 3).1 ∧ LEv.wK .rsenOn ∉ (kInit true 3).1) :=
  ⟨⟨by decide, by decide⟩, C8_wire_mode 3 (by decide) (by decide)⟩

/-- C9 fails as stated: on the payload `"1.0,2.0"` the comma-splitting
parser of `read_resistance_auto` returns the two values, but the non-AUTO
path of `read_resistance_configured` — which applies `float()` to the WHOLE
stripped payload without splitting on commas — degrades to the `[nan]`
sentinel even though every comma-separated field is numeric. -/
theorem C9_counterexample :
    (kReadResAuto true 20000 "1.0,2.0").2 = .ok [PyVal.num 1, PyVal.num 2] ∧
    (kReadResConfigured true 20000 "MAN" "OFF" 2 (1 / 100) "VOLT" (1 / 20) 2 (1 / 10)
        "1.0,2.0").2 = .ok [PyVal.nan] ∧
    PyVal.nan ≠ PyVal.num 1 := by
  refine ⟨by with_unfolding_all rfl, by with_unfolding_all rfl, by simp⟩

/-- C9 (amended).  `read_resistance_auto` (like the source-and-measure
reads) splits the stripped payload on commas and parses each non-empty
field, raising the parse error exactly when some field is non-numeric.  The
non-AUTO path of `read_resistance_configured` does NOT split on commas: it
parses the whole stripped payload as one float and, instead of ever
raising, returns the single-element `[nan]` sentinel whenever that parse
fails — including on comma-separated payloads of valid numbers. -/
theorem C9_parse_asymmetry_amended (mode : String) (hm : mode ≠ "AUTO")
    (rng vp cp sl dly : ℚ) (oc sf : String) (wm : ℤ) (resp : String) :
    (∀ vs, parseFloats resp = some vs → (kReadResAuto true rng resp).2 = .ok vs) ∧
    (parseFloats resp = none → (kReadResAuto true rng resp).2 = .error .parseError) ∧
    (∀ v, pyFloat resp = some v →
      (kReadResConfigured true rng mode oc vp cp sf sl wm dly resp).2 = .ok [v]) ∧
    (pyFloat resp = none →
      (kReadResConfigured true rng mode oc vp cp sf sl wm dly resp).2
        = .ok [PyVal.nan]) ∧
    (∀ e, (kReadResConfigured true rng mode oc vp cp sf sl wm dly resp).2
        ≠ .error e) := by
  have hconf : (kReadResConfigured true rng mode oc vp cp sf sl wm dly resp).2
      = (match pyFloat resp with
         | some v => .ok [v]
         | none => .ok [PyVal.nan]) := by
    rw [kReadResConfigured]
    simp [hm]
  refine ⟨?_, ?_, ?_, ?_, ?_⟩
  · intro vs hvs
    rw [kReadResAuto]
    simp [hvs]
  · intro hvs
    rw [kReadResAuto]
    simp [hvs]
  · intro v hv
    rw [hconf, hv]
  · intro hv
    rw [hconf, hv]
  · intro e
    rw [hconf]
    cases pyFloat resp <;> simp

/-- Witness for `C9_parse_asymmetry_amended` at mode `"MAN"`. -/
theorem C9_parse_asymmetry_amended_witness :
    ("MAN" ≠ "AUTO") ∧
    ((∀ vs, parseFloats "7.5" = some vs → (kReadResAuto true 20000 "7.5").2 = .ok vs) ∧
     (parseFloats "7.5" = none → (kReadResAuto true 20000 "7.5").2 = .error .parseError) ∧
     (∀ v, pyFloat "7.5" = some v →
       (kReadResConfigured true 20000 "MAN" "OFF" 2 (1 / 100) "VOLT" (1 / 20) 2 (1 / 10)
           "7.5").2 = .ok [v]) ∧
     (pyFloat "7.5" = none →
       (kReadResConfigured true 20000 "MAN" "OFF" 2 (1 / 100) "VOLT" (1 / 20) 2 (1 / 10)
           "7.5").2 = .ok [PyVal.nan]) ∧
     (∀ e, (kReadResConfigured true 20000 "MAN" "OFF" 2 (1 / 100) "VOLT" (1 / 20) 2
           (1 / 10) "7.5").2 ≠ .error e)) :=
  ⟨by decide,
   C9_parse_asymmetry_amended "MAN" (by decide) 20000 2 (1 / 100) (1 / 20) (1 / 10)
     "OFF" "VOLT" 2 "7.5"⟩

/-- C10 (confirmed).  `read_resistance_configured` in `"AUTO"` mode is
extensionally `read_resistance_auto(resistance_range)`: same emitted
commands and same result; the remaining arguments have no effect on the
outcome, and in this mode no protection limit is set and no settle delay is
honoured (the auto trace contains no protection write and no sleep). -/
theorem C10_configured_auto_delegates (conn : Bool) (rng vp cp sl dly : ℚ)
    (oc sf : String) (wm : ℤ) (resp : String)
    (vp2 cp2 sl2 dly2 : ℚ) (oc2 sf2 : String) (wm2 : ℤ) :
    kReadResConfigured conn rng "AUTO" oc vp cp sf sl wm dly resp
      = kReadResAuto conn rng resp ∧
    kReadResConfigured conn rng "AUTO" oc vp cp sf sl wm dly resp
      = kReadResConfigured conn rng "AUTO" oc2 vp2 cp2 sf2 sl2 wm2 dly2 resp ∧
    (∀ p, LEv.wK (.sensCurrProt p) ∉ (kReadResAuto conn rng resp).1) ∧
    (∀ p, LEv.wK (.sensVoltProt p) ∉ (kReadResAuto conn rng resp).1) ∧
    (∀ d, LEv.pause d ∉ (kReadResAuto conn rng resp).1) := by
  have h : ∀ (vp3 cp3 sl3 dly3 : ℚ) (oc3 sf3 : String) (wm3 : ℤ),
      kReadResConfigured conn rng "AUTO" oc3 vp3 cp3 sf3 sl3 wm3 dly3 resp
        = kReadResAuto conn rng resp := by
    intro vp3 cp3 sl3 dly3 oc3 sf3 wm3
    cases conn <;> rfl
  refine ⟨h vp cp sl dly oc sf wm, ?_, ?_, ?_, ?_⟩
  · rw [h vp cp sl dly oc sf wm, h vp2 cp2 sl2 dly2 oc2 sf2 wm2]
  · intro p
    cases conn <;> simp [kReadResAuto]
  · intro p
    cases conn <;> simp [kReadResAuto]
  · intro d
    cases conn <;> simp [kReadResAuto]
